import Mathlib

/-!
Shallow embedding of the dalek-browser-ios driver (src/index.js): port
negotiation, process-lifecycle tracking, and console suppress/restore.
Pure JS functions become Lean functions; the callback-chained launch and
teardown pipelines become explicit state passing over a `DriverState`,
with every external call (port scan, process listing, server start/stop,
kill) recorded as an `Event` in order of issue, and the pending promise
modelled as an `Outcome`.
-/

namespace DalekIos

/-- A console write handler (`process.stdout.write` / `process.stderr.write`).
`undef` models a JS `undefined` slot, `noop` the suppression closure
installed by `_suppressAppiumLogs`, `orig n` a pre-existing real handler. -/
inductive Writer where
  | undef : Writer
  | noop : Writer
  | orig : Nat → Writer
  deriving DecidableEq, Repr

/-- JS `String.prototype.split` with a single-character separator, over
the character list of the string: `[] ↦ [[]]` (as `''.split(c)` is
`['']`), and each occurrence of the separator opens a new chunk. -/
def jsSplit (sep : Char) : List Char → List (List Char)
  | [] => [[]]
  | x :: xs =>
    match jsSplit sep xs with
    | [] => if x = sep then [[], []] else [[x]]
    | y :: ys => if x = sep then [] :: y :: ys else (x :: y) :: ys

/-- Observable actions the driver performs, in order of issue: system log
emissions (`reporterEvents.emit('report:log:system', …)`), port scans
(`portscanner.findAPortNotInUse(preferred, max, host, cb)`), the process
listing (`cp.exec('ps -ax | grep "iPhone Simulator.app"')`), the external
server start (`appium.run` with the resolved port and webhook address),
the teardown stop signals, the settling delay, and kill spawns (a process
identifier is the raw token text, a list of characters). -/
inductive Event where
  | logSystem : String → Event
  | findAPortNotInUse : Nat → Option Nat → String → Event
  | execProcessList : Event
  | appiumRun : Nat → String → Event
  | closeWebSocketServer : Event
  | closeRestServer : Event
  | settleDelay : Nat → Event
  | spawnKill : List Char → Event
  deriving DecidableEq, Repr

/-- The mutable fields of the `IosDriver` object that the core subsystem
reads or writes, plus the two process-wide console write handlers. -/
structure DriverState where
  port : Nat
  maxPort : Option Nat
  webhookPort : Nat
  maxWebhookPort : Option Nat
  host : String
  openProcesses : List (List Char)
  appiumServer : Option Nat
  stdoutWrite : Writer
  stderrWrite : Writer
  oldWrite : Writer
  oldWriteErr : Writer
  deriving DecidableEq, Repr

/-- The driver's compiled-in defaults: `port: 4723`, `webhookPort: 9003`,
`host: 'localhost'`; `maxPort` / `maxWebhookPort` are never initialised
(JS `undefined`, modelled `none`). The console handlers are whatever the
process had installed. -/
def initialState (wOut wErr : Writer) : DriverState :=
  { port := 4723, maxPort := none, webhookPort := 9003, maxWebhookPort := none,
    host := "localhost", openProcesses := [], appiumServer := none,
    stdoutWrite := wOut, stderrWrite := wErr,
    oldWrite := Writer.undef, oldWriteErr := Writer.undef }

/-- `getPort` accessor. -/
def getPort (s : DriverState) : Nat := s.port

/-- `getMaxPort` accessor (may be JS `undefined`, i.e. `none`). -/
def getMaxPort (s : DriverState) : Option Nat := s.maxPort

/-- `getWebhookPort` accessor. -/
def getWebhookPort (s : DriverState) : Nat := s.webhookPort

/-- `getMaxWebhookPort` accessor (may be JS `undefined`, i.e. `none`). -/
def getMaxWebhookPort (s : DriverState) : Option Nat := s.maxWebhookPort

/-- `getHost` accessor. -/
def getHost (s : DriverState) : String := s.host

/-- The `ios` section of one user browser configuration entry. A field is
`none` when absent or JS-falsy at that position. -/
structure IosConfig where
  port : Option Nat
  portRange : Option (List Nat)
  webhookPort : Option Nat
  webhookPortRange : Option (List Nat)
  deriving DecidableEq, Repr

/-- One entry of the user's `browsers` configuration list. -/
structure BrowserConfig where
  ios : Option IosConfig
  deriving DecidableEq, Repr

/-- `_checkAppiumPorts`: a truthy `browser.ios.port` sets `port` and
`maxPort := port + 90` and emits a log; then a `browser.ios.portRange`
of length exactly 2 overwrites both bounds verbatim and emits a log. -/
def _checkAppiumPorts (browser : BrowserConfig) (s : DriverState) :
    DriverState × List Event :=
  let step1 : DriverState × List Event :=
    match browser.ios with
    | some ios =>
      match ios.port with
      | some p =>
        if p ≠ 0 then
          ({ s with port := p, maxPort := some (p + 90) },
           [Event.logSystem
             ("dalek-browser-ios: Switching to user defined port: " ++ toString p)])
        else (s, [])
      | none => (s, [])
    | none => (s, [])
  let step2 : DriverState × List Event :=
    match browser.ios with
    | some ios =>
      match ios.portRange with
      | some [a, b] =>
        ({ step1.1 with port := a, maxPort := some b },
         [Event.logSystem
           ("dalek-browser-ios: Switching to user defined port(s): "
             ++ toString a ++ " -> " ++ toString b)])
      | some _ => (step1.1, [])
      | none => (step1.1, [])
    | none => (step1.1, [])
  (step2.1, step1.2 ++ step2.2)

/-- `_checkWebhookPorts`: same shape as `_checkAppiumPorts` but for
`webhookPort` / `webhookPortRange`. -/
def _checkWebhookPorts (browser : BrowserConfig) (s : DriverState) :
    DriverState × List Event :=
  let step1 : DriverState × List Event :=
    match browser.ios with
    | some ios =>
      match ios.webhookPort with
      | some p =>
        if p ≠ 0 then
          ({ s with webhookPort := p, maxWebhookPort := some (p + 90) },
           [Event.logSystem
             ("dalek-browser-ios: Switching to user defined webhook port: " ++ toString p)])
        else (s, [])
      | none => (s, [])
    | none => (s, [])
  let step2 : DriverState × List Event :=
    match browser.ios with
    | some ios =>
      match ios.webhookPortRange with
      | some [a, b] =>
        ({ step1.1 with webhookPort := a, maxWebhookPort := some b },
         [Event.logSystem
           ("dalek-browser-ios: Switching to user defined webhook port(s): "
             ++ toString a ++ " -> " ++ toString b)])
      | some _ => (step1.1, [])
      | none => (step1.1, [])
    | none => (step1.1, [])
  (step2.1, step1.2 ++ step2.2)

/-- `_checkUserDefinedPorts`: applies the appium-port overrides, then the
webhook-port overrides, for one browser configuration entry. -/
def _checkUserDefinedPorts (browser : BrowserConfig) (s : DriverState) :
    DriverState × List Event :=
  let r1 := _checkAppiumPorts browser s
  let r2 := _checkWebhookPorts browser r1.1
  (r2.1, r1.2 ++ r2.2)

/-- `_checkPorts` (driver-port part): if the negotiated port differs from
the stored one, emit one switch log and store it; otherwise do nothing. -/
def _checkPorts (s : DriverState) (port : Nat) : DriverState × List Event :=
  if s.port ≠ port then
    ({ s with port := port },
     [Event.logSystem ("dalek-browser-ios: Switching to port: " ++ toString port)])
  else (s, [])

/-- `_launch` (webhook-port part): if the negotiated webhook port differs
from the stored one, emit one switch log and store it. -/
def _launch (s : DriverState) (port : Nat) : DriverState × List Event :=
  if s.webhookPort ≠ port then
    ({ s with webhookPort := port },
     [Event.logSystem ("dalek-browser-ios: Switching to webhook port: " ++ toString port)])
  else (s, [])

/-- `_filterProcessItem`: keep a token iff it is non-empty (the JS
callback returns the item, truthy iff non-empty, else `false`). -/
def _filterProcessItem (item : List Char) : Bool := item ≠ []

/-- `_scanProcess`: split the line on single spaces, drop empty tokens;
if the token at index 1 is `'??'`, push the token at index 0. -/
def _scanProcess (result : List (List Char)) (line : List Char) : List (List Char) :=
  let data := (jsSplit ' ' line).filter _filterProcessItem
  if data.get? 1 = some ['?', '?'] then result ++ data.take 1 else result

/-- `_transformProcesses`: split the listing on newlines and scan each
line, accumulating matched process identifiers in order. -/
def _transformProcesses (stdout : List Char) : List (List Char) :=
  (jsSplit '\n' stdout).foldl _scanProcess []

/-- `_suppressAppiumLogs`: save both write handlers and replace both with
the no-op closure. -/
def _suppressAppiumLogs (s : DriverState) : DriverState :=
  { s with oldWrite := s.stdoutWrite, oldWriteErr := s.stderrWrite,
           stdoutWrite := Writer.noop, stderrWrite := Writer.noop }

/-- `_reinstantiateLog`: restore the stdout write handler only. -/
def _reinstantiateLog (s : DriverState) : DriverState :=
  { s with stdoutWrite := s.oldWrite }

/-- `_killProcess`'s blacklist walk: start with `kill = true`, clear it on
any baseline pid equal to the candidate; returns whether to kill. -/
def _killProcess (openProcesses : List (List Char)) (processID : List Char) : Bool :=
  openProcesses.foldl (fun kill pid => if pid = processID then false else kill) true

/-- `_kill`: for each enumerated process, spawn a kill unless it was in
the pre-launch baseline; then restore the stderr write handler. -/
def _kill (s : DriverState) (result : List (List Char)) : DriverState × List Event :=
  ({ s with stderrWrite := s.oldWriteErr },
   (result.map (fun pid =>
      if _killProcess s.openProcesses pid then [Event.spawnKill pid] else [])).flatten)

/-- `_listProcesses`: store the enumerated baseline (the `err` argument is
ignored by the source), suppress console output, and start the external
server with `_loadAppiumArgs` (port and `host:webhookPort` webhook). -/
def _listProcesses (s : DriverState) (err : Option String) (result : List (List Char)) :
    DriverState × List Event :=
  let s1 := { s with openProcesses := result }
  let s2 := _suppressAppiumLogs s1
  (s2, [Event.appiumRun (getPort s2) (getHost s2 ++ ":" ++ toString (getWebhookPort s2))])

/-- `_afterAppiumStarted`: store the server handle and restore stdout. -/
def _afterAppiumStarted (s : DriverState) (appiumServer : Nat) : DriverState :=
  _reinstantiateLog { s with appiumServer := some appiumServer }

/-- Responses the environment feeds to the asynchronous callbacks of one
launch / teardown: the two negotiated ports, the error and stdout handed
to the process-listing callback, and the server handle passed to the
readiness callback (`none` when the external server never signals). -/
structure Env where
  controlPortResult : Nat
  webhookPortResult : Nat
  enumError : Option String
  enumStdout : List Char
  serverStart : Option Nat
  deriving DecidableEq, Repr

/-- Settlement status of the launch promise (`Q.defer()`). -/
inductive Outcome where
  | pending : Outcome
  | resolved : Outcome
  | rejected : String → Outcome
  deriving DecidableEq, Repr

/-- Result of running the whole launch callback chain. -/
structure LaunchResult where
  state : DriverState
  events : List Event
  outcome : Outcome
  deriving DecidableEq, Repr

/-- The `browsers.forEach(this._checkUserDefinedPorts.bind(this))` loop,
threading state and accumulating log events in order. -/
def cfgFold (bs : List BrowserConfig) (acc : DriverState × List Event) :
    DriverState × List Event :=
  bs.foldl (fun acc b =>
    ((_checkUserDefinedPorts b acc.1).1, acc.2 ++ (_checkUserDefinedPorts b acc.1).2)) acc

/-- The user-override phase of `launch`: the loop runs only when the
`browsers` configuration entry is an array (`none` models absent or
non-array). -/
def userPortsApplied (browsers : Option (List BrowserConfig)) (s : DriverState) :
    DriverState × List Event :=
  match browsers with
  | some bs => cfgFold bs (s, [])
  | none => (s, [])

/-- The `launch` callback chain, sequenced as the source issues it:
user port overrides for each configured browser, control-port scan,
`_checkPorts`, webhook-port scan, `_launch`, process listing,
`_listProcesses` (which starts the server), and — only if the server
signals readiness — `_afterAppiumStarted`, which resolves the promise. -/
def launchRun (browsers : Option (List BrowserConfig)) (env : Env) (s : DriverState) :
    LaunchResult :=
  let cfg := userPortsApplied browsers s
  let s1 := cfg.1
  let negotiateControl := [Event.findAPortNotInUse (getPort s1) (getMaxPort s1) (getHost s1)]
  let r2 := _checkPorts s1 env.controlPortResult
  let s2 := r2.1
  let negotiateWebhook :=
    [Event.findAPortNotInUse (getWebhookPort s2) (getMaxWebhookPort s2) (getHost s2)]
  let r3 := _launch s2 env.webhookPortResult
  let s3 := r3.1
  let procs := _transformProcesses env.enumStdout
  let r4 := _listProcesses s3 env.enumError procs
  let events := cfg.2 ++ negotiateControl ++ r2.2 ++ negotiateWebhook ++ r3.2
    ++ [Event.execProcessList] ++ r4.2
  match env.serverStart with
  | some handle => ⟨_afterAppiumStarted r4.1 handle, events, Outcome.resolved⟩
  | none => ⟨r4.1, events, Outcome.pending⟩

/-- The `kill` teardown chain: close the web-socket and REST listeners,
wait the fixed 1000 ms delay, re-enumerate processes, then `_kill`. -/
def killRun (env : Env) (s : DriverState) : DriverState × List Event :=
  let procs := _transformProcesses env.enumStdout
  let r := _kill s procs
  (r.1,
   [Event.closeWebSocketServer, Event.closeRestServer,
    Event.settleDelay 1000, Event.execProcessList] ++ r.2)

/-- Events that reach outside the driver (everything except log emission). -/
def isExternalCall : Event → Bool
  | Event.logSystem _ => false
  | _ => true

/-- The fields of the driver state that the port-override and
port-negotiation steps never touch, bundled for preservation lemmas. -/
def nonPortFields (s : DriverState) :
    String × List (List Char) × Option Nat × Writer × Writer × Writer × Writer :=
  (s.host, s.openProcesses, s.appiumServer, s.stdoutWrite, s.stderrWrite,
   s.oldWrite, s.oldWriteErr)

theorem killProcess_foldl (p : List Char) (l : List (List Char)) (a : Bool) :
    l.foldl (fun kill pid => if pid = p then false else kill) a
      = (a && !(decide (p ∈ l))) := by
  induction l generalizing a with
  | nil => simp
  | cons x xs ih =>
    simp only [List.foldl_cons, ih, List.mem_cons]
    by_cases hx : x = p
    · simp [hx]
    · have hx' : p ≠ x := fun h => hx h.symm
      simp [hx, hx']

theorem killProcess_eq (openP : List (List Char)) (p : List Char) :
    _killProcess openP p = !(decide (p ∈ openP)) := by
  unfold _killProcess
  rw [killProcess_foldl]
  simp

/-- C1. The teardown kill step attempts termination exactly on the set
difference of the enumerated processes minus the pre-launch baseline
`openProcesses`: a baseline pid is never killed, every enumerated pid
outside the baseline gets a kill spawned. -/
theorem kill_delta_spec (s : DriverState) (result : List (List Char)) (p : List Char) :
    Event.spawnKill p ∈ (_kill s result).2 ↔ p ∈ result ∧ p ∉ s.openProcesses := by
  simp only [_kill, List.mem_flatten, List.mem_map]
  constructor
  · rintro ⟨l, ⟨pid, hpid, rfl⟩, hp⟩
    by_cases hk : _killProcess s.openProcesses pid
    · simp [hk] at hp
      rcases hp with rfl
      rw [killProcess_eq] at hk
      simp at hk
      exact ⟨hpid, hk⟩
    · simp [hk] at hp
  · rintro ⟨hmem, hnot⟩
    refine ⟨[Event.spawnKill p], ⟨p, hmem, ?_⟩, by simp⟩
    rw [killProcess_eq]
    simp [hnot]

theorem scanProcess_append (acc : List (List Char)) (line : List Char) :
    _scanProcess acc line = acc ++ _scanProcess [] line := by
  simp only [_scanProcess]
  split <;> simp

theorem foldl_scanProcess (ls : List (List Char)) (acc : List (List Char)) :
    ls.foldl _scanProcess acc = acc ++ ls.foldl _scanProcess [] := by
  induction ls generalizing acc with
  | nil => simp
  | cons l ls ih =>
    rw [List.foldl_cons, List.foldl_cons, ih, scanProcess_append,
      ih (_scanProcess [] l), List.append_assoc]

theorem mem_foldl_scanProcess (ls : List (List Char)) (p : List Char) :
    p ∈ ls.foldl _scanProcess [] ↔ ∃ line ∈ ls, p ∈ _scanProcess [] line := by
  induction ls with
  | nil => simp
  | cons l ls ih =>
    rw [List.foldl_cons, foldl_scanProcess, List.mem_append, ih]
    simp

theorem mem_scanProcess_nil (line p : List Char) :
    p ∈ _scanProcess [] line ↔
      2 ≤ ((jsSplit ' ' line).filter _filterProcessItem).length ∧
      ((jsSplit ' ' line).filter _filterProcessItem).get? 1 = some ['?', '?'] ∧
      ((jsSplit ' ' line).filter _filterProcessItem).get? 0 = some p := by
  simp only [_scanProcess]
  rcases hdata : (jsSplit ' ' line).filter _filterProcessItem with _ | ⟨a, _ | ⟨b, rest⟩⟩ <;>
    simp_all [List.get?] <;> tauto

/-- C4. A line of the process-listing output is matched iff, after
splitting on spaces and dropping empty tokens, it has at least two tokens
and its token at index 1 is the `'??'` marker; the collected value is the
token at index 0. Short lines are skipped and an empty listing yields an
empty result. -/
theorem transform_processes_spec :
    (∀ stdout p, p ∈ _transformProcesses stdout ↔
      ∃ line ∈ jsSplit '\n' stdout,
        2 ≤ ((jsSplit ' ' line).filter _filterProcessItem).length ∧
        ((jsSplit ' ' line).filter _filterProcessItem).get? 1 = some ['?', '?'] ∧
        ((jsSplit ' ' line).filter _filterProcessItem).get? 0 = some p) ∧
    _transformProcesses [] = [] := by
  constructor
  · intro stdout p
    rw [_transformProcesses, mem_foldl_scanProcess]
    constructor
    · rintro ⟨line, hline, hp⟩
      exact ⟨line, hline, (mem_scanProcess_nil line p).1 hp⟩
    · rintro ⟨line, hline, hp⟩
      exact ⟨line, hline, (mem_scanProcess_nil line p).2 hp⟩
  · decide

theorem checkPorts_fst (s : DriverState) (p : Nat) :
    (_checkPorts s p).1 = { s with port := p } := by
  unfold _checkPorts
  split
  · rfl
  · rename_i h
    rw [not_not] at h
    rw [← h]

theorem checkPorts_snd (s : DriverState) (p : Nat) :
    (_checkPorts s p).2 =
      if s.port = p then []
      else [Event.logSystem ("dalek-browser-ios: Switching to port: " ++ toString p)] := by
  unfold _checkPorts
  split <;> rename_i h <;> simp at h <;> simp [h]

theorem launch_fst (s : DriverState) (p : Nat) :
    (_launch s p).1 = { s with webhookPort := p } := by
  unfold _launch
  split
  · rfl
  · rename_i h
    rw [not_not] at h
    rw [← h]

theorem launch_snd (s : DriverState) (p : Nat) :
    (_launch s p).2 =
      if s.webhookPort = p then []
      else [Event.logSystem ("dalek-browser-ios: Switching to webhook port: " ++ toString p)] := by
  unfold _launch
  split <;> rename_i h <;> simp at h <;> simp [h]

theorem checkAppiumPorts_nonPort (b : BrowserConfig) (s : DriverState) :
    nonPortFields (_checkAppiumPorts b s).1 = nonPortFields s := by
  simp only [_checkAppiumPorts]
  repeat' split
  all_goals rfl

theorem checkWebhookPorts_nonPort (b : BrowserConfig) (s : DriverState) :
    nonPortFields (_checkWebhookPorts b s).1 = nonPortFields s := by
  simp only [_checkWebhookPorts]
  repeat' split
  all_goals rfl

theorem checkUserDefinedPorts_nonPort (b : BrowserConfig) (s : DriverState) :
    nonPortFields (_checkUserDefinedPorts b s).1 = nonPortFields s := by
  simp only [_checkUserDefinedPorts]
  rw [checkWebhookPorts_nonPort, checkAppiumPorts_nonPort]

theorem checkAppiumPorts_logs (b : BrowserConfig) (s : DriverState) :
    ((_checkAppiumPorts b s).2).filter isExternalCall = [] := by
  simp only [_checkAppiumPorts]
  repeat' split
  all_goals rfl

theorem checkWebhookPorts_logs (b : BrowserConfig) (s : DriverState) :
    ((_checkWebhookPorts b s).2).filter isExternalCall = [] := by
  simp only [_checkWebhookPorts]
  repeat' split
  all_goals rfl

theorem checkUserDefinedPorts_logs (b : BrowserConfig) (s : DriverState) :
    ((_checkUserDefinedPorts b s).2).filter isExternalCall = [] := by
  simp only [_checkUserDefinedPorts]
  rw [List.filter_append, checkAppiumPorts_logs, checkWebhookPorts_logs]
  rfl

theorem cfgFold_nonPort (bs : List BrowserConfig) (acc : DriverState × List Event) :
    nonPortFields (cfgFold bs acc).1 = nonPortFields acc.1 := by
  induction bs generalizing acc with
  | nil => rfl
  | cons b bs ih =>
    simp only [cfgFold, List.foldl_cons] at *
    rw [ih, checkUserDefinedPorts_nonPort]

theorem cfgFold_logs (bs : List BrowserConfig) (acc : DriverState × List Event) :
    ((cfgFold bs acc).2).filter isExternalCall = acc.2.filter isExternalCall := by
  induction bs generalizing acc with
  | nil => rfl
  | cons b bs ih =>
    simp only [cfgFold, List.foldl_cons] at *
    rw [ih, List.filter_append, checkUserDefinedPorts_logs]
    simp

theorem userPortsApplied_nonPort (browsers : Option (List BrowserConfig)) (s : DriverState) :
    nonPortFields (userPortsApplied browsers s).1 = nonPortFields s := by
  cases browsers with
  | none => rfl
  | some bs => exact cfgFold_nonPort bs (s, [])

theorem userPortsApplied_logs (browsers : Option (List BrowserConfig)) (s : DriverState) :
    ((userPortsApplied browsers s).2).filter isExternalCall = [] := by
  cases browsers with
  | none => rfl
  | some bs => exact cfgFold_logs bs (s, [])

/-- Unfolding of the full launch chain into a normal form: the final
state applies both negotiated ports and the snapshot to the
override-adjusted state, suppresses the console, and (on readiness)
stores the handle and restores stdout; the event list is the exact
issue-ordered sequence. -/
theorem launchRun_eq (browsers : Option (List BrowserConfig)) (env : Env) (s : DriverState) :
    launchRun browsers env s =
      { state :=
          (match env.serverStart with
           | some h =>
             _afterAppiumStarted
               (_suppressAppiumLogs
                 { (userPortsApplied browsers s).1 with
                     port := env.controlPortResult,
                     webhookPort := env.webhookPortResult,
                     openProcesses := _transformProcesses env.enumStdout }) h
           | none =>
             _suppressAppiumLogs
               { (userPortsApplied browsers s).1 with
                   port := env.controlPortResult,
                   webhookPort := env.webhookPortResult,
                   openProcesses := _transformProcesses env.enumStdout }),
        events :=
          (userPortsApplied browsers s).2
          ++ [Event.findAPortNotInUse (userPortsApplied browsers s).1.port
                (userPortsApplied browsers s).1.maxPort (userPortsApplied browsers s).1.host]
          ++ (if (userPortsApplied browsers s).1.port = env.controlPortResult then []
              else [Event.logSystem
                ("dalek-browser-ios: Switching to port: " ++ toString env.controlPortResult)])
          ++ [Event.findAPortNotInUse (userPortsApplied browsers s).1.webhookPort
                (userPortsApplied browsers s).1.maxWebhookPort
                (userPortsApplied browsers s).1.host]
          ++ (if (userPortsApplied browsers s).1.webhookPort = env.webhookPortResult then []
              else [Event.logSystem
                ("dalek-browser-ios: Switching to webhook port: "
                  ++ toString env.webhookPortResult)])
          ++ [Event.execProcessList]
          ++ [Event.appiumRun env.controlPortResult
                ((userPortsApplied browsers s).1.host ++ ":"
                  ++ toString env.webhookPortResult)],
        outcome :=
          match env.serverStart with
          | some _ => Outcome.resolved
          | none => Outcome.pending } := by
  unfold launchRun
  simp only [checkPorts_fst, checkPorts_snd, launch_fst, launch_snd, _listProcesses,
    getPort, getMaxPort, getWebhookPort, getMaxWebhookPort, getHost]
  cases env.serverStart <;> rfl

theorem filter_switchLog (c : Prop) [Decidable c] (msg : String) :
    (if c then [] else [Event.logSystem msg]).filter isExternalCall = [] := by
  split <;> rfl

/-- C5. When the negotiated port equals the stored one, no log is emitted
and the stored port is unchanged; when it differs, exactly one switch log
naming the new port is emitted and the port is stored — for the control
port (`_checkPorts`) and the webhook port (`_launch`) alike; the stored
values are the ones passed to the external server's arguments. -/
theorem port_switch_spec (s : DriverState) (port : Nat) :
    ((_checkPorts s port).2 =
      if s.port = port then []
      else [Event.logSystem ("dalek-browser-ios: Switching to port: " ++ toString port)]) ∧
    ((_checkPorts s port).1 = { s with port := port }) ∧
    ((_launch s port).2 =
      if s.webhookPort = port then []
      else [Event.logSystem ("dalek-browser-ios: Switching to webhook port: " ++ toString port)]) ∧
    ((_launch s port).1 = { s with webhookPort := port }) ∧
    (∀ browsers env,
      Event.appiumRun env.controlPortResult
          ((userPortsApplied browsers s).1.host ++ ":" ++ toString env.webhookPortResult)
        ∈ (launchRun browsers env s).events) := by
  refine ⟨checkPorts_snd s port, checkPorts_fst s port, launch_snd s port,
    launch_fst s port, fun browsers env => ?_⟩
  rw [launchRun_eq]
  simp

/-- C6. A single user-defined port sets the preferred port to it and the
maximum to it plus 90; a two-element range sets both bounds verbatim; in
either case exactly one system log message is emitted. Likewise for the
webhook port settings. -/
theorem user_defined_ports_spec (p a b q c d : Nat) (hp : p ≠ 0) (hq : q ≠ 0)
    (s : DriverState) :
    (_checkAppiumPorts ⟨some ⟨some p, none, none, none⟩⟩ s =
      ({ s with port := p, maxPort := some (p + 90) },
       [Event.logSystem
         ("dalek-browser-ios: Switching to user defined port: " ++ toString p)])) ∧
    (_checkAppiumPorts ⟨some ⟨none, some [a, b], none, none⟩⟩ s =
      ({ s with port := a, maxPort := some b },
       [Event.logSystem
         ("dalek-browser-ios: Switching to user defined port(s): "
           ++ toString a ++ " -> " ++ toString b)])) ∧
    (_checkWebhookPorts ⟨some ⟨none, none, some q, none⟩⟩ s =
      ({ s with webhookPort := q, maxWebhookPort := some (q + 90) },
       [Event.logSystem
         ("dalek-browser-ios: Switching to user defined webhook port: " ++ toString q)])) ∧
    (_checkWebhookPorts ⟨some ⟨none, none, none, some [c, d]⟩⟩ s =
      ({ s with webhookPort := c, maxWebhookPort := some d },
       [Event.logSystem
         ("dalek-browser-ios: Switching to user defined webhook port(s): "
           ++ toString c ++ " -> " ++ toString d)])) ∧
    (∀ bs env, ∃ rest,
      (launchRun (some bs) env s).events =
        (userPortsApplied (some bs) s).2
          ++ [Event.findAPortNotInUse (userPortsApplied (some bs) s).1.port
                (userPortsApplied (some bs) s).1.maxPort
                (userPortsApplied (some bs) s).1.host]
          ++ rest) := by
  refine ⟨?_, ?_, ?_, ?_, fun bs env => ?_⟩
  case refine_1 => simp [_checkAppiumPorts, hp]
  case refine_2 => simp [_checkAppiumPorts]
  case refine_3 => simp [_checkWebhookPorts, hq]
  case refine_4 => simp [_checkWebhookPorts]
  case refine_5 =>
    rw [launchRun_eq]
    refine ⟨(if (userPortsApplied (some bs) s).1.port = env.controlPortResult then []
        else [Event.logSystem ("dalek-browser-ios: Switching to port: "
          ++ toString env.controlPortResult)])
      ++ [Event.findAPortNotInUse (userPortsApplied (some bs) s).1.webhookPort
            (userPortsApplied (some bs) s).1.maxWebhookPort
            (userPortsApplied (some bs) s).1.host]
      ++ (if (userPortsApplied (some bs) s).1.webhookPort = env.webhookPortResult then []
          else [Event.logSystem ("dalek-browser-ios: Switching to webhook port: "
            ++ toString env.webhookPortResult)])
      ++ [Event.execProcessList]
      ++ [Event.appiumRun env.controlPortResult
            ((userPortsApplied (some bs) s).1.host ++ ":"
              ++ toString env.webhookPortResult)], ?_⟩
    simp [List.append_assoc]

/-- Witness for `user_defined_ports_spec` at concrete ports. -/
theorem user_defined_ports_spec_witness :
    _checkAppiumPorts ⟨some ⟨some 5555, none, none, none⟩⟩
        (initialState (Writer.orig 1) (Writer.orig 2)) =
      ({ initialState (Writer.orig 1) (Writer.orig 2) with
          port := 5555, maxPort := some (5555 + 90) },
       [Event.logSystem
         ("dalek-browser-ios: Switching to user defined port: " ++ toString (5555 : Nat))]) :=
  (user_defined_ports_spec 5555 6100 6120 5556 6200 6220 (by decide) (by decide)
    (initialState (Writer.orig 1) (Writer.orig 2))).1

/-- C7. Launch issues its external calls strictly in the order:
control-port negotiation, webhook-port negotiation, process snapshot,
external server start; teardown issues the stop signals, then the fixed
settling delay, then the re-enumeration, then the kills. -/
theorem lifecycle_ordering (browsers : Option (List BrowserConfig)) (env : Env)
    (s : DriverState) :
    (∃ c mc h1 w mw h2 pt wh,
      ((launchRun browsers env s).events).filter isExternalCall =
        [Event.findAPortNotInUse c mc h1, Event.findAPortNotInUse w mw h2,
         Event.execProcessList, Event.appiumRun pt wh]) ∧
    (∃ kills,
      (killRun env s).2 =
        [Event.closeWebSocketServer, Event.closeRestServer,
         Event.settleDelay 1000, Event.execProcessList] ++ kills) := by
  constructor
  · refine ⟨(userPortsApplied browsers s).1.port, (userPortsApplied browsers s).1.maxPort,
      (userPortsApplied browsers s).1.host, (userPortsApplied browsers s).1.webhookPort,
      (userPortsApplied browsers s).1.maxWebhookPort, (userPortsApplied browsers s).1.host,
      env.controlPortResult,
      (userPortsApplied browsers s).1.host ++ ":" ++ toString env.webhookPortResult, ?_⟩
    rw [launchRun_eq]
    simp only [List.filter_append, userPortsApplied_logs, filter_switchLog]
    rfl
  · exact ⟨(_kill s (_transformProcesses env.enumStdout)).2, rfl⟩

/-- C9. With no user override, the stored maximum ports stay `undefined`
(`none`): both accessors return `none` and the negotiator is invoked with
an absent maximum for the control and webhook searches. -/
theorem no_override_max_none (env : Env) (wOut wErr : Writer) :
    getMaxPort (initialState wOut wErr) = none ∧
    getMaxWebhookPort (initialState wOut wErr) = none ∧
    ((launchRun none env (initialState wOut wErr)).events).filter isExternalCall =
      [Event.findAPortNotInUse 4723 none "localhost",
       Event.findAPortNotInUse 9003 none "localhost",
       Event.execProcessList,
       Event.appiumRun env.controlPortResult
         ("localhost" ++ ":" ++ toString env.webhookPortResult)] := by
  refine ⟨rfl, rfl, ?_⟩
  rw [launchRun_eq]
  simp only [List.filter_append, userPortsApplied_logs, filter_switchLog]
  rfl

/-- C10. When one configuration supplies both a single port and a
two-element range, the range wins: the final bounds are exactly the
range's elements; likewise for the webhook port and range. -/
theorem range_precedence (p a b q c d : Nat) (hp : p ≠ 0) (hq : q ≠ 0) (s : DriverState) :
    (_checkUserDefinedPorts ⟨some ⟨some p, some [a, b], some q, some [c, d]⟩⟩ s).1.port = a ∧
    (_checkUserDefinedPorts ⟨some ⟨some p, some [a, b], some q, some [c, d]⟩⟩ s).1.maxPort
      = some b ∧
    (_checkUserDefinedPorts ⟨some ⟨some p, some [a, b], some q, some [c, d]⟩⟩ s).1.webhookPort
      = c ∧
    (_checkUserDefinedPorts ⟨some ⟨some p, some [a, b], some q, some [c, d]⟩⟩ s).1.maxWebhookPort
      = some d := by
  refine ⟨?_, ?_, ?_, ?_⟩ <;>
    simp [_checkUserDefinedPorts, _checkAppiumPorts, _checkWebhookPorts, hp, hq]

/-- Witness for `range_precedence` at concrete ports and ranges. -/
theorem range_precedence_witness :
    (_checkUserDefinedPorts ⟨some ⟨some 5555, some [6100, 6120], some 5556, some [6200, 6220]⟩⟩
      (initialState (Writer.orig 1) (Writer.orig 2))).1.port = 6100 :=
  (range_precedence 5555 6100 6120 5556 6200 6220 (by decide) (by decide)
    (initialState (Writer.orig 1) (Writer.orig 2))).1

/-- C2 counterexample: at a concrete launch whose process enumeration
reports an error, the promise still resolves (it is not rejected with
`ProcessQueryError` — no such rejection exists in the code) and the
external server start is still invoked. -/
theorem enum_error_ignored_cx :
    (launchRun none ⟨4723, 9003, some "spawn failed", [], some 1⟩
        (initialState (Writer.orig 1) (Writer.orig 2))).outcome = Outcome.resolved ∧
    (launchRun none ⟨4723, 9003, some "spawn failed", [], some 1⟩
        (initialState (Writer.orig 1) (Writer.orig 2))).outcome
      ≠ Outcome.rejected "ProcessQueryError" ∧
    Event.appiumRun 4723 ("localhost" ++ ":" ++ toString (9003 : Nat)) ∈
      (launchRun none ⟨4723, 9003, some "spawn failed", [], some 1⟩
        (initialState (Writer.orig 1) (Writer.orig 2))).events := by
  decide

/-- C2 amended: `_listProcesses` discards the enumeration error — the
launch behaves identically with or without an error, the listing is
still taken, and the external server start is still invoked. -/
theorem enum_error_ignored (browsers : Option (List BrowserConfig)) (env : Env)
    (e : String) (s : DriverState) :
    launchRun browsers { env with enumError := some e } s =
      launchRun browsers { env with enumError := none } s ∧
    (∃ pt wh, Event.appiumRun pt wh ∈
      (launchRun browsers { env with enumError := some e } s).events) := by
  refine ⟨rfl, ?_⟩
  rw [launchRun_eq]
  refine ⟨env.controlPortResult,
    (userPortsApplied browsers s).1.host ++ ":"
      ++ toString ({ env with enumError := some e } : Env).webhookPortResult, ?_⟩
  simp

/-- C3 counterexample: at a concrete launch whose external server never
signals readiness, the promise is not rejected with
`ExternalServerStartError` (it stays pending) and the console handlers
are not restored — both remain the no-op suppression closure. -/
theorem server_start_failure_cx :
    (launchRun none ⟨4723, 9003, none, [], none⟩
        (initialState (Writer.orig 1) (Writer.orig 2))).outcome
      ≠ Outcome.rejected "ExternalServerStartError" ∧
    (launchRun none ⟨4723, 9003, none, [], none⟩
        (initialState (Writer.orig 1) (Writer.orig 2))).outcome = Outcome.pending ∧
    (launchRun none ⟨4723, 9003, none, [], none⟩
        (initialState (Writer.orig 1) (Writer.orig 2))).state.stdoutWrite
      ≠ Writer.orig 1 ∧
    (launchRun none ⟨4723, 9003, none, [], none⟩
        (initialState (Writer.orig 1) (Writer.orig 2))).state.stderrWrite
      ≠ Writer.orig 2 := by
  decide

/-- C3 amended: the code has no error path for the external server start:
if readiness is never signalled the launch promise stays pending forever
and the console output stays suppressed (both handlers remain the no-op);
no `ExternalServerStartError` rejection exists. -/
theorem server_start_no_error_path (browsers : Option (List BrowserConfig)) (env : Env)
    (s : DriverState) :
    (launchRun browsers { env with serverStart := none } s).outcome = Outcome.pending ∧
    (launchRun browsers { env with serverStart := none } s).state.stdoutWrite
      = Writer.noop ∧
    (launchRun browsers { env with serverStart := none } s).state.stderrWrite
      = Writer.noop :=
  ⟨rfl, rfl, rfl⟩

/-- C8 counterexample: at a concrete successful launch the stderr write
handler at the readiness point is not its pre-suppression value (only
stdout is restored), so restore-after-suppress is not the identity on
the full console sink state. -/
theorem console_restore_cx :
    (launchRun none ⟨4723, 9003, none, [], some 1⟩
        (initialState (Writer.orig 1) (Writer.orig 2))).outcome = Outcome.resolved ∧
    (launchRun none ⟨4723, 9003, none, [], some 1⟩
        (initialState (Writer.orig 1) (Writer.orig 2))).state.stdoutWrite
      = Writer.orig 1 ∧
    (launchRun none ⟨4723, 9003, none, [], some 1⟩
        (initialState (Writer.orig 1) (Writer.orig 2))).state.stderrWrite
      ≠ Writer.orig 2 := by
  decide

/-- C8 amended: at the readiness point of a successful launch only the
stdout write handler is restored to its pre-suppression value; the
stderr handler remains the no-op until teardown's `_kill` restores it to
the saved pre-suppression value. -/
theorem console_restore_stdout_only (browsers : Option (List BrowserConfig)) (env : Env)
    (h : Nat) (s : DriverState) :
    ((launchRun browsers { env with serverStart := some h } s).state.stdoutWrite
        = s.stdoutWrite) ∧
    ((launchRun browsers { env with serverStart := some h } s).state.stderrWrite
        = Writer.noop) ∧
    (∀ result,
      (_kill (launchRun browsers { env with serverStart := some h } s).state result).1.stderrWrite
        = s.stderrWrite) := by
  have hnp := userPortsApplied_nonPort browsers s
  simp only [nonPortFields, Prod.mk.injEq] at hnp
  obtain ⟨-, -, -, hso, hse, -, -⟩ := hnp
  rw [launchRun_eq]
  refine ⟨?_, rfl, fun result => ?_⟩
  · exact hso
  · exact hse

end DalekIos
